import Mathlib

/-!
Shallow embedding of the HoloViews browser widget
(the Jinja-templated JavaScript class instantiated as the animation widget).

The JavaScript class keeps, per widget instance:
  * `frames`   : an object mapping a frame index to a rendered HTML string;
  * `keyMap`   : an object mapping a stringified dimension-value tuple to a
                 frame index (filled in server-side and passed to the
                 constructor);
  * `cache`    : an object mapping a frame index to a DOM fragment (a jQuery
                 `div`) that is created hidden and later filled either from
                 `frames` or from a JSON server URL;
  * `current_vals`, `current_frame`, `slider_ids`, and the mode flags
    `load_json` and `cached`.

JavaScript objects with integer-like keys are modelled as association lists
over `Nat`; `x in obj` becomes `(alookup l k).isSome`, `obj[k] = v` becomes
`aset`, and mutation of a stored DOM fragment becomes `aupdate`.  A possibly
`undefined` frame index (the result of a failed `keyMap` lookup) is an
`Option Nat`; `undefined in this.cache` is `false` because the cache only
ever receives genuine frame indices as keys.  The call
`kernel.execute(cmd, ...)` is fire and forget, so it is modelled by
appending the command string to a `requests` log; the iopub callback is a
separate transition `dyn_callback`.  The `update_cache` loop REASSIGNS its
counter inside the body (`i = Object.keys(this.frames)[i]`, then `i++`), so
it visits positions 0, k₀ + 1, k₁ + 1, … and skips keys unless the frame
keys are exactly `0 .. n-1`; `updateCacheGo` reproduces this.  Dimension
values are numbers or non-numeric string labels (`JSVal`); for those,
`isNaN` is `false` exactly on numbers, which is what the template relies
on.
-/

/-- A JavaScript dimension value: a number (modelled exactly as a rational,
the value the IEEE double denotes) or a non-numeric string label. -/
inductive JSVal where
  | num (q : ℚ)
  | str (s : String)
deriving DecidableEq, Repr

/-- The content of a cached DOM fragment: freshly created (`$(&lt;div /&gt;)`
holds nothing), loaded from a JSON server URL (`.load(data_url)`), or filled
with an HTML string (`.html(frames[idx])`). -/
inductive DomContent where
  | empty
  | fromUrl (url : String)
  | html (s : String)
deriving DecidableEq, Repr

/-- One entry of `this.cache`: a DOM fragment together with its visibility
(`.hide()` / `.show()`). -/
structure CacheEntry where
  content : DomContent
  visible : Bool
deriving DecidableEq, Repr

/-- Lookup in a JavaScript object modelled as an association list
(`k in obj` is `(alookup l k).isSome`, `obj[k]` is `alookup l k`). -/
def alookup {κ α : Type} [DecidableEq κ] : List (κ × α) → κ → Option α
  | [], _ => none
  | (k', v) :: l, k => if k = k' then some v else alookup l k

/-- JavaScript property assignment `obj[k] = v`: replace the binding if the
key is present, otherwise add it. -/
def aset {κ α : Type} [DecidableEq κ] : List (κ × α) → κ → α → List (κ × α)
  | [], k, v => [(k, v)]
  | (k', v') :: l, k, v => if k = k' then (k', v) :: l else (k', v') :: aset l k v

/-- In-place mutation of the object stored under key `k` (a jQuery call such
as `.hide()`, `.show()`, `.html(..)` on `this.cache[k]`); does nothing when
the key is absent. -/
def aupdate {κ α : Type} [DecidableEq κ] : List (κ × α) → κ → (α → α) → List (κ × α)
  | [], _, _ => []
  | (k', v) :: l, k, f => if k = k' then (k', f v) :: l else (k', v) :: aupdate l k f

/-- The state of one widget instance (the fields assigned in the
constructor, plus the log of kernel commands issued by `kernel.execute` and
the template-interpolated `server` address used by `populate_cache`). -/
structure Widget where
  frames : List (Nat × String)
  fig_id : String
  img_id : String
  id : String
  slider_ids : List String
  keyMap : List (String × Nat)
  current_frame : Option Nat
  current_vals : List JSVal
  load_json : Bool
  mode : String
  notFound : String
  cached : Bool
  cache : List (Nat × CacheEntry)
  requests : List String
  server : String
deriving DecidableEq, Repr

/-- Left-pad a digit string with zeros to length `d`. -/
def padZeros (s : String) (d : Nat) : String :=
  String.mk (List.replicate (d - s.length) '0') ++ s

/-- `Number.prototype.toFixed` for a non-negative value: the integer `n`
with `n / 10^d` closest to the value, ties toward the larger `n`, printed
with exactly `d` fractional digits. -/
def toFixedNN (q : ℚ) (d : Nat) : String :=
  let n : Nat := (Int.floor (q * 10 ^ d + 1 / 2)).toNat
  if d = 0 then toString (n / 10 ^ d)
  else toString (n / 10 ^ d) ++ "." ++ padZeros (toString (n % 10 ^ d)) d

/-- `val.toFixed(d)` as specified by ECMA-262: the sign is taken from the
value itself, the digits from the magnitude. -/
def toFixedJS (q : ℚ) (d : Nat) : String :=
  if q < 0 then ("-") ++ toFixedNN (-q) d else toFixedNN q d

/-- The formatting applied by `set_frame` to one slider value before it is
quoted into the key: a number `v` passes the `!(isNaN(val))` test and is
printed with `toFixed(1)` when `v % 1 === 0` (i.e. the value is an integer,
`q.den = 1`) and with `toFixed(10)` otherwise; a non-numeric label fails the
test and is concatenated verbatim. -/
def formatVal : JSVal → String
  | JSVal.num q => toFixedJS q (if q.den = 1 then 1 else 10)
  | JSVal.str s => s

/-- JavaScript array indexing `a[i]`: out of bounds yields `undefined`,
which `isNaN` maps to `true` and string concatenation prints as
`undefined`. -/
def jsIndex (vals : List JSVal) (i : Nat) : JSVal :=
  vals.getD i (JSVal.str ("undefined"))

/-- The separator appended by the key-building loop after slider `i` of `n`:
`', '` before every value but the last, and a bare trailing `','` after the
last value when there is exactly one slider. -/
def sliderSep (n i : Nat) : String :=
  if i ≠ n - 1 then (", ") else if n = 1 then (",") else ("")

/-- The key-building loop of `set_frame`: starting from `"("`, append the
quoted formatted value and separator for each slider index, then close with
`")"`. -/
def buildKey (n : Nat) (vals : List JSVal) : String :=
  ((List.range n).foldl
    (fun acc i => acc ++ "\x27" ++ formatVal (jsIndex vals i) ++ "\x27" ++ sliderSep n i)
    ("(")) ++ ")"

/-- The command string passed to `kernel.execute` by `dynamic_update`
(`"import holoviews;" + cmd`); an `undefined` index is concatenated as the
text `undefined`. -/
def requestCmd (id : String) (current : Option Nat) : String :=
  "import holoviews;holoviews.plotting.widgets.NdWidget.widgets[\x27" ++ id ++
    "\x27].update(" ++
    (match current with
     | some n => toString n
     | none => "undefined") ++ ")"

/-- `value.hide()` applied to every entry of the cache (the `$.each` loop of
`update`). -/
def hideAll (c : List (Nat × CacheEntry)) : List (Nat × CacheEntry) :=
  c.map (fun p => (p.1, { p.2 with visible := false }))

/-- The cache after `update(current)`: when `current` is a key, every
fragment is hidden (`$.each(this.cache, .. value.hide())`) and then the one
for `current` is shown; otherwise nothing changes. -/
def updatedCache (c : List (Nat × CacheEntry)) (current : Nat) : List (Nat × CacheEntry) :=
  if (alookup c current).isSome then
    aupdate (hideAll c) current (fun e => { e with visible := true })
  else c

/-- `update(current)`: the method only mutates `this.cache` (visibility of
the stored fragments). -/
def update (w : Widget) (current : Nat) : Widget :=
  { w with cache := updatedCache w.cache current }

/-- `update(current)` for a possibly `undefined` index: `undefined` is never
a key of the cache, so the call does nothing. -/
def updateO (w : Widget) (current : Option Nat) : Widget :=
  match current with
  | some n => update w n
  | none => w

/-- `populate_cache(idx)`: in JSON mode load the fragment from the server
URL; otherwise fill it with `frames[idx]` (when `idx` is absent from
`frames`, jQuery `.html(undefined)` is a getter and changes nothing).  The
`if (this.embed) delete this.frames[idx]` branch is dead code here:
`this.embed` is never assigned, so it is `undefined` and falsy. -/
def populatedCache (w : Widget) (idx : Nat) : List (Nat × CacheEntry) :=
  if w.load_json then
    aupdate w.cache idx (fun e =>
      { e with content := DomContent.fromUrl (w.server ++ "/" ++ w.fig_id ++ "/" ++ toString idx) })
  else
    match alookup w.frames idx with
    | some s => aupdate w.cache idx (fun e => { e with content := DomContent.html s })
    | none => w.cache

/-- `populate_cache(idx)` only mutates the fragment stored in
`this.cache[idx]`. -/
def populate_cache (w : Widget) (idx : Nat) : Widget :=
  { w with cache := populatedCache w idx }

/-- Sorted insertion of a key. -/
def insertSorted (k : Nat) : List Nat → List Nat
  | [] => [k]
  | a :: l => if k ≤ a then k :: a :: l else a :: insertSorted k l

/-- Insertion sort of a key list. -/
def sortKeys : List Nat → List Nat
  | [] => []
  | k :: l => insertSorted k (sortKeys l)

/-- `Object.keys` of a JavaScript object whose keys are all integer-like:
the keys in ascending numeric order, whatever the insertion order was. -/
def objectKeys (l : List (Nat × String)) : List Nat :=
  sortKeys (l.map Prod.fst)

/-- One iteration of the `update_cache` loop body for key `i`: if `i` is not
yet a key of the cache, append a fresh hidden `div` for it and run
`populate_cache(i)`. -/
def updateCacheStep (w : Widget) (i : Nat) : Widget :=
  if (alookup w.cache i).isSome then w
  else populate_cache { w with cache := aset w.cache i ⟨DomContent.empty, false⟩ } i

/-- The non-JSON `update_cache` loop.  Its counter is REASSIGNED inside the
body: at position `pos` it executes `i = Object.keys(this.frames)[pos]`,
runs the body for that key `k`, and then `i++` coerces the key string back
to the number `k`, so the next position is `k + 1` — keys are skipped
whenever the keys of `frames` are not exactly `0 .. frame_len-1`.
`frame_len` is `_.size(this.frames)`, computed once before the loop, and the
loop body never mutates `frames`, so position `pos < frame_len` is always in
range (the `none` arm is unreachable; in it the counter would become `NaN`
and the loop would stop).  The keys are distinct naturals in ascending
order, so `Object.keys(this.frames)[pos] ≥ pos` and the position strictly
increases: `frame_len` iterations of fuel always suffice. -/
def updateCacheGo (frame_len : Nat) : Nat → Nat → Widget → Widget
  | _, 0, w => w
  | pos, fuel + 1, w =>
    if pos < frame_len then
      match (objectKeys w.frames)[pos]? with
      | some k => updateCacheGo frame_len (k + 1) fuel (updateCacheStep w k)
      | none => w
    else w

/-- `update_cache()`: in JSON mode the counter is left alone and the body
runs for `i = 0 .. _.size(keyMap)-1`; otherwise the reassigned-counter loop
above runs over `Object.keys(this.frames)`. -/
def update_cache (w : Widget) : Widget :=
  if w.load_json then
    (List.range w.keyMap.length).foldl updateCacheStep w
  else
    updateCacheGo w.frames.length 0 w.frames.length w

/-- The key sequence actually visited by `updateCacheGo` from position
`pos`, computed from a fixed key list (the loop never changes `frames`). -/
def visitedKeys (keys : List Nat) (frame_len : Nat) : Nat → Nat → List Nat
  | _, 0 => []
  | pos, fuel + 1 =>
    if pos < frame_len then
      match keys[pos]? with
      | some k => k :: visitedKeys keys frame_len (k + 1) fuel
      | none => []
    else []

/-- The indices for which the `update_cache` body actually runs: all of
`0 .. _.size(keyMap)-1` in JSON mode, otherwise the subsequence of
`Object.keys(this.frames)` reached by the reassigned counter. -/
def ucKeys (w : Widget) : List Nat :=
  if w.load_json then List.range w.keyMap.length
  else visitedKeys (objectKeys w.frames) w.frames.length 0 w.frames.length

/-- `current in this.cache` for a possibly `undefined` index. -/
def inCache (w : Widget) (current : Option Nat) : Bool :=
  match current with
  | some n => (alookup w.cache n).isSome
  | none => false

/-- `dynamic_update(current)`: if the frame is not cached, issue one
fire-and-forget kernel command for it (logged in `requests`); otherwise just
show it via `update`. -/
def dynamic_update (w : Widget) (current : Option Nat) : Widget :=
  if inCache w current then updateO w current
  else { w with requests := w.requests ++ [requestCmd w.id current] }

/-- The iopub callback registered by `dynamic_update`: slice the quotes off
the kernel's string payload, store it in `frames[current]`, then
`update_cache()` and `update(current)`. -/
def dyn_callback (w : Widget) (current : Nat) (msg : String) : Widget :=
  let data := (msg.drop 1).dropRight 1
  update (update_cache { w with frames := aset w.frames current data }) current

/-- `set_frame(dim_val, dim_idx)`: store the value, build the key from all
current slider values, resolve it through `keyMap` into `current_frame`,
then `update` (cached mode) or `dynamic_update` (otherwise). -/
def set_frame (w : Widget) (dim_val : JSVal) (dim_idx : Nat) : Widget :=
  let w1 := { w with current_vals := w.current_vals.set dim_idx dim_val }
  let key := buildKey w1.slider_ids.length w1.current_vals
  let current := alookup w1.keyMap key
  let w2 := { w1 with current_frame := current }
  if w2.cached then updateO w2 current else dynamic_update w2 current

/-- `init_slider(init_val)`: in cached mode fill the cache and show frame 0,
otherwise request frame 0 dynamically (the argument is unused by the
body). -/
def init_slider (w : Widget) (init_val : JSVal) : Widget :=
  if w.cached then update (update_cache w) 0 else dynamic_update w (some 0)

/-- The state the constructor has built just before its final line: every
field assigned from the arguments (and the derived element ids), the cache
empty, no kernel command issued yet. -/
def ctorState (frames : List (Nat × String)) (id : String) (slider_ids : List String)
    (keyMap : List (String × Nat)) (dim_vals : List JSVal) (notFound : String)
    (load_json : Bool) (mode : String) (cached : Bool) (server : String) : Widget :=
  { frames := frames
    fig_id := "fig_" ++ id
    img_id := "_anim_img" ++ id
    id := id
    slider_ids := slider_ids
    keyMap := keyMap
    current_frame := some 0
    current_vals := dim_vals
    load_json := load_json
    mode := mode
    notFound := notFound
    cached := cached
    cache := []
    requests := []
    server := server }

/-- The constructor: assign every field, start with an empty cache, and end
by calling `init_slider(this.current_vals[0])`. -/
def mkWidget (frames : List (Nat × String)) (id : String) (slider_ids : List String)
    (keyMap : List (String × Nat)) (dim_vals : List JSVal) (notFound : String)
    (load_json : Bool) (mode : String) (cached : Bool) (server : String) : Widget :=
  init_slider
    (ctorState frames id slider_ids keyMap dim_vals notFound load_json mode cached server)
    (jsIndex dim_vals 0)

/-! ### Association-list laws -/

theorem alookup_aset {κ α : Type} [DecidableEq κ] (l : List (κ × α)) (k k' : κ) (v : α) :
    alookup (aset l k v) k' = if k' = k then some v else alookup l k' := by
  induction l with
  | nil =>
    by_cases h : k' = k <;> simp [aset, alookup, h]
  | cons p l ih =>
    obtain ⟨a, b⟩ := p
    by_cases hka : k = a
    · subst hka
      by_cases h : k' = k <;> simp [aset, alookup, h]
    · by_cases h : k' = a
      · subst h
        have : ¬ k' = k := fun hh => hka hh.symm
        simp [aset, alookup, hka, this]
      · simp [aset, alookup, hka, h, ih]

theorem alookup_aupdate {κ α : Type} [DecidableEq κ] (l : List (κ × α)) (k k' : κ)
    (f : α → α) :
    alookup (aupdate l k f) k' = if k' = k then (alookup l k).map f else alookup l k' := by
  induction l with
  | nil =>
    by_cases h : k' = k <;> simp [aupdate, alookup, h]
  | cons p l ih =>
    obtain ⟨a, b⟩ := p
    by_cases hka : k = a
    · subst hka
      by_cases h : k' = k <;> simp [aupdate, alookup, h]
    · by_cases h : k' = a
      · subst h
        have : ¬ k' = k := fun hh => hka hh.symm
        simp [aupdate, alookup, hka, this]
      · simp [aupdate, alookup, hka, h, ih]

theorem map_fst_aupdate {κ α : Type} [DecidableEq κ] (l : List (κ × α)) (k : κ)
    (f : α → α) : (aupdate l k f).map Prod.fst = l.map Prod.fst := by
  induction l with
  | nil => simp [aupdate]
  | cons p l ih =>
    obtain ⟨a, b⟩ := p
    by_cases hka : k = a <;> simp [aupdate, hka, ih]

theorem map_fst_aset_of_none {κ α : Type} [DecidableEq κ] (l : List (κ × α)) (k : κ)
    (v : α) (h : alookup l k = none) :
    (aset l k v).map Prod.fst = l.map Prod.fst ++ [k] := by
  induction l with
  | nil => simp [aset]
  | cons p l ih =>
    obtain ⟨a, b⟩ := p
    by_cases hka : k = a
    · subst hka; simp [alookup] at h
    · simp only [alookup, if_neg hka] at h
      simp [aset, hka, ih h]

theorem subset_map_fst_aset {κ α : Type} [DecidableEq κ] (l : List (κ × α)) (k : κ)
    (v : α) : l.map Prod.fst ⊆ (aset l k v).map Prod.fst := by
  induction l with
  | nil => simp
  | cons p l ih =>
    obtain ⟨a, b⟩ := p
    by_cases hka : k = a
    · subst hka; simp [aset]
    · simp only [aset, if_neg hka, List.map_cons]
      exact List.cons_subset_cons a ih

theorem alookup_isSome_iff_mem {κ α : Type} [DecidableEq κ] (l : List (κ × α)) (k : κ) :
    (alookup l k).isSome ↔ k ∈ l.map Prod.fst := by
  induction l with
  | nil => simp [alookup]
  | cons p l ih =>
    obtain ⟨a, b⟩ := p
    by_cases h : k = a <;> simp [alookup, h, ih]

theorem alookup_hideAll (c : List (Nat × CacheEntry)) (k : Nat) :
    alookup (hideAll c) k = (alookup c k).map (fun e => { e with visible := false }) := by
  induction c with
  | nil => simp [hideAll, alookup]
  | cons p l ih =>
    obtain ⟨a, b⟩ := p
    by_cases h : k = a <;> simp [hideAll, alookup, h] <;> simpa [hideAll] using ih

theorem map_fst_hideAll (c : List (Nat × CacheEntry)) :
    (hideAll c).map Prod.fst = c.map Prod.fst := by
  simp [hideAll]

/-! ### Visibility counting -/

/-- The number of cached fragments that are currently shown. -/
def visCount (c : List (Nat × CacheEntry)) : Nat :=
  c.countP (fun p => p.2.visible)

theorem visCount_hideAll (c : List (Nat × CacheEntry)) : visCount (hideAll c) = 0 := by
  induction c with
  | nil => rfl
  | cons p l ih => simpa [visCount, hideAll, List.countP_cons] using ih

theorem aupdate_cons_self {κ α : Type} [DecidableEq κ] (l : List (κ × α)) (k : κ)
    (b : α) (f : α → α) : aupdate ((k, b) :: l) k f = (k, f b) :: l := by
  simp [aupdate]

theorem aupdate_cons_ne {κ α : Type} [DecidableEq κ] (l : List (κ × α)) (k a : κ)
    (b : α) (f : α → α) (hk : k ≠ a) :
    aupdate ((a, b) :: l) k f = (a, b) :: aupdate l k f := by
  simp [aupdate, hk]

theorem visCount_cons (p : Nat × CacheEntry) (l : List (Nat × CacheEntry)) :
    visCount (p :: l) = visCount l + if p.2.visible then 1 else 0 := by
  simp [visCount, List.countP_cons]

theorem visCount_show (c : List (Nat × CacheEntry)) (k : Nat) (h0 : visCount c = 0)
    (h : (alookup c k).isSome) :
    visCount (aupdate c k (fun e => { e with visible := true })) = 1 := by
  induction c with
  | nil => simp [alookup] at h
  | cons p l ih =>
    obtain ⟨a, b⟩ := p
    rw [visCount_cons] at h0
    have hb : b.visible = false := by
      cases hv : b.visible
      · rfl
      · rw [hv] at h0; simp at h0
    have hl0 : visCount l = 0 := by
      rw [hb] at h0; simpa using h0
    by_cases hk : k = a
    · subst hk
      rw [aupdate_cons_self, visCount_cons]
      have hv : (({ content := b.content, visible := true } : CacheEntry)).visible = true := rfl
      rw [hv]
      simp [hl0]
    · simp only [alookup, if_neg hk] at h
      rw [aupdate_cons_ne _ _ _ _ _ hk, visCount_cons, hb]
      simpa using ih hl0 h

theorem visCount_aupdate_le_one (c : List (Nat × CacheEntry)) (k : Nat)
    (f : CacheEntry → CacheEntry) (h0 : visCount c = 0) :
    visCount (aupdate c k f) ≤ 1 := by
  induction c with
  | nil => simp [aupdate, visCount]
  | cons p l ih =>
    obtain ⟨a, b⟩ := p
    rw [visCount_cons] at h0
    have hb : b.visible = false := by
      cases hv : b.visible
      · rfl
      · rw [hv] at h0; simp at h0
    have hl0 : visCount l = 0 := by
      rw [hb] at h0; simpa using h0
    by_cases hk : k = a
    · subst hk
      rw [aupdate_cons_self, visCount_cons, hl0]
      split <;> simp
    · rw [aupdate_cons_ne _ _ _ _ _ hk, visCount_cons, hb]
      simpa using ih hl0

/-! ### Operations touch only the intended fields -/

/-- Replace only the cache of a widget. -/
def withCache (w : Widget) (c : List (Nat × CacheEntry)) : Widget :=
  { w with cache := c }

theorem update_onlyCache (w : Widget) (n : Nat) :
    update w n = withCache w (update w n).cache := rfl

theorem populate_cache_onlyCache (w : Widget) (idx : Nat) :
    populate_cache w idx = withCache w (populate_cache w idx).cache := rfl

theorem updateCacheStep_onlyCache (w : Widget) (i : Nat) :
    updateCacheStep w i = withCache w (updateCacheStep w i).cache := by
  unfold updateCacheStep
  split
  · rfl
  · rfl

theorem foldl_updateCacheStep_onlyCache (l : List Nat) (w : Widget) :
    l.foldl updateCacheStep w = withCache w (l.foldl updateCacheStep w).cache := by
  induction l generalizing w with
  | nil => rfl
  | cons i l ih =>
    have h1 := updateCacheStep_onlyCache w i
    calc List.foldl updateCacheStep w (i :: l)
        = List.foldl updateCacheStep (updateCacheStep w i) l := rfl
      _ = withCache (updateCacheStep w i)
            (List.foldl updateCacheStep (updateCacheStep w i) l).cache := ih _
      _ = withCache w (List.foldl updateCacheStep (updateCacheStep w i) l).cache := by
            rw [h1]; rfl
      _ = withCache w (List.foldl updateCacheStep w (i :: l)).cache := rfl

theorem updateCacheStep_frames (w : Widget) (i : Nat) :
    (updateCacheStep w i).frames = w.frames := by
  rw [updateCacheStep_onlyCache]
  rfl

theorem updateCacheGo_eq_foldl (frame_len : Nat) :
    ∀ (fuel pos : Nat) (w : Widget),
    updateCacheGo frame_len pos fuel w =
      (visitedKeys (objectKeys w.frames) frame_len pos fuel).foldl updateCacheStep w := by
  intro fuel
  induction fuel with
  | zero =>
    intro pos w
    rfl
  | succ fuel ih =>
    intro pos w
    simp only [updateCacheGo, visitedKeys]
    by_cases hpos : pos < frame_len
    · rw [if_pos hpos, if_pos hpos]
      cases hk : (objectKeys w.frames)[pos]? with
      | some k =>
        simp only [hk]
        rw [ih (k + 1) (updateCacheStep w k), updateCacheStep_frames]
        rfl
      | none =>
        simp only [hk, List.foldl_nil]
    · rw [if_neg hpos, if_neg hpos]
      rfl

theorem update_cache_eq_foldl (w : Widget) :
    update_cache w = (ucKeys w).foldl updateCacheStep w := by
  unfold update_cache ucKeys
  by_cases hj : w.load_json = true
  · rw [if_pos hj, if_pos hj]
  · rw [if_neg hj, if_neg hj]
    exact updateCacheGo_eq_foldl _ _ _ _

theorem update_cache_onlyCache (w : Widget) :
    update_cache w = withCache w (update_cache w).cache := by
  rw [update_cache_eq_foldl]
  exact foldl_updateCacheStep_onlyCache _ w

/-! ### `update` laws -/

theorem update_of_none (w : Widget) (n : Nat) (h : alookup w.cache n = none) :
    update w n = w := by
  show withCache w (updatedCache w.cache n) = w
  unfold updatedCache
  rw [h]
  rfl

theorem alookup_update_self (w : Widget) (n : Nat) (e : CacheEntry)
    (h : alookup w.cache n = some e) :
    alookup (update w n).cache n = some { e with visible := true } := by
  show alookup (updatedCache w.cache n) n = _
  unfold updatedCache
  rw [h]
  simp [alookup_aupdate, alookup_hideAll, h]

theorem alookup_update_ne (w : Widget) (n k : Nat) (hk : k ≠ n)
    (hn : (alookup w.cache n).isSome) :
    alookup (update w n).cache k =
      (alookup w.cache k).map (fun e => { e with visible := false }) := by
  show alookup (updatedCache w.cache n) k = _
  unfold updatedCache
  rw [if_pos hn, alookup_aupdate, if_neg hk, alookup_hideAll]

theorem isSome_alookup_update (w : Widget) (n k : Nat) :
    (alookup (update w n).cache k).isSome = (alookup w.cache k).isSome := by
  show (alookup (updatedCache w.cache n) k).isSome = _
  unfold updatedCache
  split
  · by_cases hk : k = n
    · subst hk
      simp [alookup_aupdate, alookup_hideAll]
    · simp [alookup_aupdate, hk, alookup_hideAll]
  · rfl

theorem map_fst_update (w : Widget) (n : Nat) :
    (update w n).cache.map Prod.fst = w.cache.map Prod.fst := by
  show (updatedCache w.cache n).map Prod.fst = _
  unfold updatedCache
  split
  · rw [map_fst_aupdate, map_fst_hideAll]
  · rfl

theorem visCount_update_of_some (w : Widget) (n : Nat)
    (h : (alookup w.cache n).isSome) : visCount (update w n).cache = 1 := by
  show visCount (updatedCache w.cache n) = 1
  unfold updatedCache
  rw [if_pos h]
  refine visCount_show _ _ (visCount_hideAll _) ?_
  rw [alookup_hideAll]
  obtain ⟨e, he⟩ := Option.isSome_iff_exists.mp h
  rw [he]
  rfl

/-! ### `update_cache` loop laws -/

theorem alookup_populatedCache_ne (w : Widget) (idx k : Nat) (hk : k ≠ idx) :
    alookup (populatedCache w idx) k = alookup w.cache k := by
  unfold populatedCache
  split
  · rw [alookup_aupdate, if_neg hk]
  · split
    · rw [alookup_aupdate, if_neg hk]
    · rfl

theorem alookup_populatedCache_frames (w : Widget) (idx : Nat) (s : String)
    (e : CacheEntry) (hj : w.load_json = false) (hf : alookup w.frames idx = some s)
    (hc : alookup w.cache idx = some e) :
    alookup (populatedCache w idx) idx = some { e with content := DomContent.html s } := by
  unfold populatedCache
  rw [hj]
  simp only [Bool.false_eq_true, if_false]
  rw [hf]
  rw [alookup_aupdate, if_pos rfl, hc]
  rfl

theorem alookup_updateCacheStep_of_some (w : Widget) (i k : Nat) (e : CacheEntry)
    (h : alookup w.cache k = some e) :
    alookup (updateCacheStep w i).cache k = some e := by
  unfold updateCacheStep
  split
  · exact h
  · rename_i hi
    have hki : k ≠ i := by
      intro hh
      subst hh
      rw [h] at hi
      simp at hi
    show alookup (populatedCache _ i) k = some e
    rw [alookup_populatedCache_ne _ _ _ hki]
    show alookup (aset w.cache i ⟨DomContent.empty, false⟩) k = some e
    rw [alookup_aset, if_neg hki]
    exact h

theorem alookup_updateCacheStep_ne (w : Widget) (i k : Nat) (hk : k ≠ i) :
    alookup (updateCacheStep w i).cache k = alookup w.cache k := by
  unfold updateCacheStep
  split
  · rfl
  · show alookup (populatedCache _ i) k = _
    rw [alookup_populatedCache_ne _ _ _ hk]
    show alookup (aset w.cache i ⟨DomContent.empty, false⟩) k = _
    rw [alookup_aset, if_neg hk]

theorem updateCacheStep_creates (w : Widget) (i : Nat) (s : String)
    (hj : w.load_json = false) (hn : alookup w.cache i = none)
    (hf : alookup w.frames i = some s) :
    alookup (updateCacheStep w i).cache i = some ⟨DomContent.html s, false⟩ := by
  unfold updateCacheStep
  rw [hn]
  simp only [Option.isSome_none, Bool.false_eq_true, if_false]
  exact alookup_populatedCache_frames _ _ s ⟨DomContent.empty, false⟩ hj hf
    (by rw [alookup_aset, if_pos rfl])

theorem updateCacheStep_mem_self (w : Widget) (i : Nat) :
    (alookup (updateCacheStep w i).cache i).isSome := by
  unfold updateCacheStep
  split
  · assumption
  · show (alookup (populatedCache _ i) i).isSome
    have hset : alookup (aset w.cache i ⟨DomContent.empty, false⟩) i =
        some ⟨DomContent.empty, false⟩ := by rw [alookup_aset, if_pos rfl]
    unfold populatedCache
    split
    · rw [alookup_aupdate, if_pos rfl]
      show (Option.map _ (alookup (aset w.cache i ⟨DomContent.empty, false⟩) i)).isSome
      rw [hset]
      rfl
    · split
      · rw [alookup_aupdate, if_pos rfl]
        show (Option.map _ (alookup (aset w.cache i ⟨DomContent.empty, false⟩) i)).isSome
        rw [hset]
        rfl
      · show (alookup (aset w.cache i ⟨DomContent.empty, false⟩) i).isSome
        rw [hset]
        rfl

theorem foldl_ucs_of_some (l : List Nat) (w : Widget) (k : Nat) (e : CacheEntry)
    (h : alookup w.cache k = some e) :
    alookup (l.foldl updateCacheStep w).cache k = some e := by
  induction l generalizing w with
  | nil => exact h
  | cons i l ih => exact ih _ (alookup_updateCacheStep_of_some w i k e h)

theorem foldl_ucs_isSome_mono (l : List Nat) (w : Widget) (k : Nat)
    (h : (alookup w.cache k).isSome) :
    (alookup (l.foldl updateCacheStep w).cache k).isSome := by
  obtain ⟨e, he⟩ := Option.isSome_iff_exists.mp h
  rw [foldl_ucs_of_some l w k e he]
  rfl

theorem foldl_ucs_mem (l : List Nat) (w : Widget) (k : Nat) (hk : k ∈ l) :
    (alookup (l.foldl updateCacheStep w).cache k).isSome := by
  induction l generalizing w with
  | nil => cases hk
  | cons i l ih =>
    rcases List.mem_cons.mp hk with h | h
    · subst h
      exact foldl_ucs_isSome_mono l _ k (updateCacheStep_mem_self w k)
    · exact ih (updateCacheStep w i) h

theorem foldl_ucs_id (l : List Nat) (w : Widget)
    (h : ∀ i ∈ l, (alookup w.cache i).isSome) : l.foldl updateCacheStep w = w := by
  induction l with
  | nil => rfl
  | cons i l ih =>
    have hstep : updateCacheStep w i = w := by
      unfold updateCacheStep
      rw [if_pos (h i (List.mem_cons_self i l))]
    show l.foldl updateCacheStep (updateCacheStep w i) = w
    rw [hstep]
    exact ih (fun j hj => h j (List.mem_cons_of_mem i hj))

theorem foldl_ucs_creates : ∀ (l : List Nat) (w : Widget) (k : Nat) (s : String),
    w.load_json = false → alookup w.cache k = none → alookup w.frames k = some s →
    k ∈ l →
    alookup (l.foldl updateCacheStep w).cache k = some ⟨DomContent.html s, false⟩ := by
  intro l
  induction l with
  | nil =>
    intro w k s _ _ _ hk
    cases hk
  | cons i l ih =>
    intro w k s hj hn hf hk
    by_cases hik : i = k
    · subst hik
      exact foldl_ucs_of_some l _ i _ (updateCacheStep_creates w i s hj hn hf)
    · have hki : k ≠ i := fun hh => hik hh.symm
      rcases List.mem_cons.mp hk with h | h
      · exact absurd h.symm hik
      · have honly := updateCacheStep_onlyCache w i
        have hj1 : (updateCacheStep w i).load_json = false := by rw [honly]; exact hj
        have hf1 : alookup (updateCacheStep w i).frames k = some s := by rw [honly]; exact hf
        have hn1 : alookup (updateCacheStep w i).cache k = none := by
          rw [alookup_updateCacheStep_ne w i k hki]; exact hn
        exact ih _ k s hj1 hn1 hf1 h

theorem alookup_some_mem {κ α : Type} [DecidableEq κ] (l : List (κ × α)) (k : κ)
    (v : α) (h : alookup l k = some v) : k ∈ l.map Prod.fst :=
  (alookup_isSome_iff_mem l k).mp (by rw [h]; rfl)

theorem update_cache_of_some (w : Widget) (k : Nat) (e : CacheEntry)
    (h : alookup w.cache k = some e) : alookup (update_cache w).cache k = some e := by
  rw [update_cache_eq_foldl]
  exact foldl_ucs_of_some _ w k e h

theorem update_cache_mem (w : Widget) (k : Nat) (hk : k ∈ ucKeys w) :
    (alookup (update_cache w).cache k).isSome := by
  rw [update_cache_eq_foldl]
  exact foldl_ucs_mem _ w k hk

theorem update_cache_creates (w : Widget) (k : Nat) (s : String)
    (hj : w.load_json = false) (hn : alookup w.cache k = none)
    (hf : alookup w.frames k = some s) (hk : k ∈ ucKeys w) :
    alookup (update_cache w).cache k = some ⟨DomContent.html s, false⟩ := by
  rw [update_cache_eq_foldl]
  exact foldl_ucs_creates _ w k s hj hn hf hk

theorem ucKeys_update_cache (w : Widget) :
    ucKeys (update_cache w) = ucKeys w := by
  rw [update_cache_onlyCache]
  rfl

theorem update_cache_idem (w : Widget) :
    update_cache (update_cache w) = update_cache w := by
  rw [update_cache_eq_foldl (update_cache w), ucKeys_update_cache]
  exact foldl_ucs_id _ _ (fun i hi => update_cache_mem w i hi)

/-! ### Densely keyed frames: the reassigned counter visits every key -/

theorem insertSorted_zero (l : List Nat) : insertSorted 0 l = 0 :: l := by
  cases l with
  | nil => rfl
  | cons a l => simp [insertSorted]

theorem insertSorted_succ_map (k : Nat) (l : List Nat) :
    insertSorted (Nat.succ k) (l.map Nat.succ) = (insertSorted k l).map Nat.succ := by
  induction l with
  | nil => rfl
  | cons a l ih =>
    by_cases h : k ≤ a
    · simp [insertSorted, h, Nat.succ_le_succ h]
    · have h' : ¬ Nat.succ k ≤ Nat.succ a := by omega
      simp [insertSorted, h, h', ih]

theorem sortKeys_map_succ (l : List Nat) :
    sortKeys (l.map Nat.succ) = (sortKeys l).map Nat.succ := by
  induction l with
  | nil => rfl
  | cons a l ih =>
    show insertSorted (Nat.succ a) (sortKeys (l.map Nat.succ)) = _
    rw [ih, insertSorted_succ_map]
    rfl

theorem sortKeys_range (m : Nat) : sortKeys (List.range m) = List.range m := by
  induction m with
  | zero => rfl
  | succ m ih =>
    rw [List.range_succ_eq_map]
    show insertSorted 0 (sortKeys ((List.range m).map Nat.succ)) = _
    rw [sortKeys_map_succ, ih, insertSorted_zero]

theorem mem_visitedKeys_range (m : Nat) :
    ∀ (fuel pos k : Nat), pos ≤ k → k < m → m - pos ≤ fuel →
    k ∈ visitedKeys (List.range m) m pos fuel := by
  intro fuel
  induction fuel with
  | zero =>
    intro pos k h1 h2 h3
    omega
  | succ fuel ih =>
    intro pos k h1 h2 h3
    have hpos : pos < m := by omega
    have hk : (List.range m)[pos]? = some pos := List.getElem?_range hpos
    simp only [visitedKeys, if_pos hpos, hk]
    by_cases hpk : pos = k
    · subst hpk
      exact List.mem_cons_self _ _
    · exact List.mem_cons_of_mem _ (ih (pos + 1) k (by omega) h2 (by omega))

/-- With densely keyed frames (`keys = 0 .. m-1` in order) the loop visits
every key. -/
theorem mem_ucKeys_of_dense (w : Widget) (k : Nat) (hj : w.load_json = false)
    (hdense : w.frames.map Prod.fst = List.range w.frames.length)
    (hk : k ∈ w.frames.map Prod.fst) : k ∈ ucKeys w := by
  have hlen : (w.frames.map Prod.fst).length = w.frames.length := List.length_map _ _
  have hobj : objectKeys w.frames = List.range w.frames.length := by
    unfold objectKeys
    rw [hdense, sortKeys_range]
  unfold ucKeys
  rw [hj]
  simp only [Bool.false_eq_true, if_false]
  rw [hobj]
  rw [hdense] at hk
  exact mem_visitedKeys_range _ _ 0 k (Nat.zero_le k) (List.mem_range.mp hk)
    (by omega)

/-! ### The cache's key set never shrinks -/

/-- The key set of the frame cache. -/
def cacheKeys (w : Widget) : List Nat :=
  w.cache.map Prod.fst

theorem cacheKeys_update (w : Widget) (n : Nat) : cacheKeys (update w n) = cacheKeys w :=
  map_fst_update w n

theorem cacheKeys_updateO (w : Widget) (cur : Option Nat) :
    cacheKeys (updateO w cur) = cacheKeys w := by
  cases cur
  · rfl
  · exact cacheKeys_update w _

theorem cacheKeys_populate_cache (w : Widget) (idx : Nat) :
    cacheKeys (populate_cache w idx) = cacheKeys w := by
  show (populatedCache w idx).map Prod.fst = _
  unfold populatedCache
  split
  · exact map_fst_aupdate ..
  · split
    · exact map_fst_aupdate ..
    · rfl

theorem cacheKeys_updateCacheStep (w : Widget) (i : Nat) :
    cacheKeys w ⊆ cacheKeys (updateCacheStep w i) := by
  unfold updateCacheStep
  split
  · exact fun a ha => ha
  · rw [cacheKeys_populate_cache]
    show cacheKeys w ⊆ (aset w.cache i ⟨DomContent.empty, false⟩).map Prod.fst
    exact subset_map_fst_aset ..

theorem cacheKeys_foldl_ucs (l : List Nat) (w : Widget) :
    cacheKeys w ⊆ cacheKeys (l.foldl updateCacheStep w) := by
  induction l generalizing w with
  | nil => exact fun a ha => ha
  | cons i l ih =>
    exact List.Subset.trans (cacheKeys_updateCacheStep w i) (ih (updateCacheStep w i))

theorem cacheKeys_update_cache (w : Widget) :
    cacheKeys w ⊆ cacheKeys (update_cache w) := by
  rw [update_cache_eq_foldl]
  exact cacheKeys_foldl_ucs _ w

theorem cacheKeys_dynamic_update (w : Widget) (cur : Option Nat) :
    cacheKeys (dynamic_update w cur) = cacheKeys w := by
  unfold dynamic_update
  split
  · exact cacheKeys_updateO w cur
  · rfl

theorem cacheKeys_set_frame (w : Widget) (v : JSVal) (i : Nat) :
    cacheKeys (set_frame w v i) = cacheKeys w := by
  simp only [set_frame]
  split
  · exact cacheKeys_updateO _ _
  · exact cacheKeys_dynamic_update _ _

theorem cacheKeys_init_slider (w : Widget) (v : JSVal) :
    cacheKeys w ⊆ cacheKeys (init_slider w v) := by
  unfold init_slider
  split
  · rw [cacheKeys_update]
    exact cacheKeys_update_cache w
  · rw [cacheKeys_dynamic_update]
    exact fun a ha => ha

theorem cacheKeys_dyn_callback (w : Widget) (n : Nat) (m : String) :
    cacheKeys w ⊆ cacheKeys (dyn_callback w n m) := by
  unfold dyn_callback
  rw [cacheKeys_update]
  exact cacheKeys_update_cache { w with frames := aset w.frames n ((m.drop 1).dropRight 1) }

/-! ### Fields untouched by each operation -/

theorem updateO_keyMap (w : Widget) (cur : Option Nat) : (updateO w cur).keyMap = w.keyMap := by
  cases cur <;> rfl

theorem update_cache_keyMap (w : Widget) : (update_cache w).keyMap = w.keyMap := by
  rw [update_cache_onlyCache]
  rfl

theorem populate_cache_keyMap (w : Widget) (idx : Nat) :
    (populate_cache w idx).keyMap = w.keyMap := rfl

theorem dynamic_update_keyMap (w : Widget) (cur : Option Nat) :
    (dynamic_update w cur).keyMap = w.keyMap := by
  unfold dynamic_update
  split
  · exact updateO_keyMap w cur
  · rfl

theorem set_frame_keyMap (w : Widget) (v : JSVal) (i : Nat) :
    (set_frame w v i).keyMap = w.keyMap := by
  simp only [set_frame]
  split
  · exact updateO_keyMap _ _
  · exact dynamic_update_keyMap _ _

theorem init_slider_keyMap (w : Widget) (v : JSVal) :
    (init_slider w v).keyMap = w.keyMap := by
  unfold init_slider
  split
  · show (update_cache w).keyMap = w.keyMap
    exact update_cache_keyMap w
  · exact dynamic_update_keyMap w (some 0)

theorem dyn_callback_keyMap (w : Widget) (n : Nat) (m : String) :
    (dyn_callback w n m).keyMap = w.keyMap := by
  unfold dyn_callback
  show (update_cache { w with frames := aset w.frames n ((m.drop 1).dropRight 1) }).keyMap =
    w.keyMap
  rw [update_cache_keyMap]

theorem update_cache_requests (w : Widget) : (update_cache w).requests = w.requests := by
  rw [update_cache_onlyCache]
  rfl

theorem update_cache_frames (w : Widget) : (update_cache w).frames = w.frames := by
  rw [update_cache_onlyCache]
  rfl

theorem update_cache_load_json (w : Widget) : (update_cache w).load_json = w.load_json := by
  rw [update_cache_onlyCache]
  rfl

theorem dyn_callback_requests (w : Widget) (n : Nat) (m : String) :
    (dyn_callback w n m).requests = w.requests := by
  unfold dyn_callback
  show (update_cache { w with frames := aset w.frames n ((m.drop 1).dropRight 1) }).requests =
    w.requests
  rw [update_cache_requests]

/-! ### The shape of the key built by `set_frame` -/

/-- Concatenation of a list of strings. -/
def strConcat : List String → String
  | [] => ""
  | s :: l => s ++ strConcat l

/-- The pieces of a list joined with a separator between consecutive
elements (the claim-side notion of a tuple of values separated by a
fixed separator). -/
def sepBy (sep : String) : List String → String
  | [] => ""
  | [s] => s
  | s :: l => s ++ sep ++ sepBy sep l

/-- A value as it appears inside the key: single-quoted after formatting. -/
def quoteVal (v : JSVal) : String :=
  "\x27" ++ formatVal v ++ "\x27"

theorem strConcat_append (l1 l2 : List String) :
    strConcat (l1 ++ l2) = strConcat l1 ++ strConcat l2 := by
  induction l1 with
  | nil => simp [strConcat]
  | cons s l ih => simp [strConcat, ih, String.append_assoc]

theorem sepBy_append_last (sep : String) (l : List String) (x : String) :
    sepBy sep (l ++ [x]) = strConcat (l.map (fun s => s ++ sep)) ++ x := by
  induction l with
  | nil => simp [sepBy, strConcat]
  | cons s l ih =>
    cases l with
    | nil => simp [sepBy, strConcat, String.append_assoc]
    | cons t l' =>
      show s ++ sep ++ sepBy sep ((t :: l') ++ [x]) = _
      rw [ih]
      simp [strConcat, String.append_assoc]

theorem buildKey_foldl (n : Nat) (vals : List JSVal) :
    buildKey n vals =
      "(" ++ strConcat ((List.range n).map
        (fun i => "\x27" ++ formatVal (jsIndex vals i) ++ "\x27" ++ sliderSep n i)) ++ ")" := by
  unfold buildKey
  have key : ∀ (l : List Nat) (a : String),
      l.foldl (fun acc i =>
        acc ++ "\x27" ++ formatVal (jsIndex vals i) ++ "\x27" ++ sliderSep n i) a =
      a ++ strConcat (l.map
        (fun i => "\x27" ++ formatVal (jsIndex vals i) ++ "\x27" ++ sliderSep n i)) := by
    intro l
    induction l with
    | nil =>
      intro a
      simp [strConcat]
    | cons i l ih =>
      intro a
      show l.foldl _ (a ++ "\x27" ++ formatVal (jsIndex vals i) ++ "\x27" ++ sliderSep n i) = _
      rw [ih]
      simp [strConcat, String.append_assoc]
  rw [key]

theorem map_eq_map_range (h : JSVal → String) :
    ∀ (l : List JSVal), l.map h = (List.range l.length).map (fun i => h (jsIndex l i)) := by
  intro l
  induction l with
  | nil => rfl
  | cons v vs ih =>
    show h v :: vs.map h = (List.range (vs.length + 1)).map (fun i => h (jsIndex (v :: vs) i))
    rw [List.range_succ_eq_map, List.map_cons, List.map_map]
    have h0 : h (jsIndex (v :: vs) 0) = h v := rfl
    have hsucc : ((fun i => h (jsIndex (v :: vs) i)) ∘ Nat.succ) =
        (fun i => h (jsIndex vs i)) := by
      funext i
      rfl
    rw [h0, hsucc, ← ih]

theorem sliderSep_last (m : Nat) :
    sliderSep (m + 1) m = if m + 1 = 1 then (",") else ("") := by
  unfold sliderSep
  simp

theorem sliderSep_not_last (m i : Nat) (hi : i < m) : sliderSep (m + 1) i = ", " := by
  unfold sliderSep
  have : i ≠ m + 1 - 1 := by omega
  rw [if_pos this]

theorem buildKey_sepBy (vals : List JSVal) :
    buildKey vals.length vals =
      "(" ++ sepBy (", ") (vals.map quoteVal) ++
        (if vals.length = 1 then (",") else ("")) ++ ")" := by
  cases vals with
  | nil => rfl
  | cons v vs =>
    rw [buildKey_foldl]
    simp only [List.length_cons]
    rw [List.range_succ, List.map_append, strConcat_append]
    have hmap : (List.range vs.length).map
        (fun i => "\x27" ++ formatVal (jsIndex (v :: vs) i) ++ "\x27" ++
          sliderSep (vs.length + 1) i) =
        (List.range vs.length).map (fun i => quoteVal (jsIndex (v :: vs) i) ++ ", ") := by
      apply List.map_congr_left
      intro i hi
      rw [sliderSep_not_last _ _ (List.mem_range.mp hi)]
      simp [quoteVal, String.append_assoc]
    rw [hmap]
    have hlast : strConcat (List.map
        (fun i => "\x27" ++ formatVal (jsIndex (v :: vs) i) ++ "\x27" ++
          sliderSep (vs.length + 1) i) [vs.length]) =
        quoteVal (jsIndex (v :: vs) vs.length) ++
          (if vs.length + 1 = 1 then (",") else ("")) := by
      rw [List.map_cons, List.map_nil]
      show strConcat [_] = _
      rw [sliderSep_last]
      simp [strConcat, quoteVal, String.append_assoc]
    rw [hlast]
    rw [map_eq_map_range quoteVal (v :: vs)]
    show _ = "(" ++ sepBy (", ")
        ((List.range (vs.length + 1)).map (fun i => quoteVal (jsIndex (v :: vs) i))) ++ _ ++ ")"
    rw [List.range_succ, List.map_append, List.map_cons, List.map_nil, sepBy_append_last,
      List.map_map]
    have hcomp : ((fun s => s ++ ", ") ∘ (fun i => quoteVal (jsIndex (v :: vs) i))) =
        (fun i => quoteVal (jsIndex (v :: vs) i) ++ ", ") := rfl
    rw [hcomp]
    simp [String.append_assoc]

/-! ### `dynamic_update` branch laws -/

theorem updateO_current_vals (w : Widget) (cur : Option Nat) :
    (updateO w cur).current_vals = w.current_vals := by
  cases cur <;> rfl

theorem updateO_current_frame (w : Widget) (cur : Option Nat) :
    (updateO w cur).current_frame = w.current_frame := by
  cases cur <;> rfl

theorem updateO_requests (w : Widget) (cur : Option Nat) :
    (updateO w cur).requests = w.requests := by
  cases cur <;> rfl

theorem dynamic_update_current_vals (w : Widget) (cur : Option Nat) :
    (dynamic_update w cur).current_vals = w.current_vals := by
  unfold dynamic_update
  split
  · exact updateO_current_vals w cur
  · rfl

theorem dynamic_update_current_frame (w : Widget) (cur : Option Nat) :
    (dynamic_update w cur).current_frame = w.current_frame := by
  unfold dynamic_update
  split
  · exact updateO_current_frame w cur
  · rfl

theorem dynamic_update_hit (w : Widget) (cur : Option Nat) (h : inCache w cur = true) :
    dynamic_update w cur = updateO w cur := by
  unfold dynamic_update
  rw [if_pos h]

theorem dynamic_update_miss (w : Widget) (cur : Option Nat) (h : inCache w cur = false) :
    dynamic_update w cur = { w with requests := w.requests ++ [requestCmd w.id cur] } := by
  unfold dynamic_update
  rw [h]
  rfl

/-! ### Concrete widget states used to evaluate the theorems -/

/-- A cached-mode widget as instantiated by the template: two frames, one
slider, an empty cache (the state the constructor builds before
`init_slider` runs). -/
def Wc : Widget :=
  { frames := [(0, "F0"), (1, "F1")]
    fig_id := "fig_7"
    img_id := "_anim_img7"
    id := "7"
    slider_ids := ["s0"]
    keyMap := [("(\x27a\x27,)", 0), ("(\x27b\x27,)", 1)]
    current_frame := some 0
    current_vals := [JSVal.str ("a")]
    load_json := false
    mode := "ipynb"
    notFound := "nf"
    cached := true
    cache := []
    requests := []
    server := "srv" }

/-- `Wc` after `update_cache`: both frames cached and hidden. -/
def WcFull : Widget :=
  update_cache Wc

/-- The same state in dynamic (non-cached) mode. -/
def Wd : Widget :=
  { Wc with cached := false }

/-! ### The claims -/

/-- C1: every call to `set_frame(dim_val, dim_idx)` stores `dim_val` at
position `dim_idx` of `current_vals`, builds a string key from all current
slider values, resolves that key through `keyMap` to a frame index, records
it as `current_frame`, and then toggles DOM visibility for the resolved
cache entry via `update` when in cached mode, or falls back to
`dynamic_update` when not in cached mode. -/
theorem set_frame_spec (w : Widget) (dim_val : JSVal) (dim_idx : Nat) :
    let vals := w.current_vals.set dim_idx dim_val
    let cur := alookup w.keyMap (buildKey w.slider_ids.length vals)
    let w2 := { w with current_vals := vals, current_frame := cur }
    (set_frame w dim_val dim_idx).current_vals = vals
    ∧ (set_frame w dim_val dim_idx).current_frame = cur
    ∧ set_frame w dim_val dim_idx =
        (if w.cached then updateO w2 cur else dynamic_update w2 cur) := by
  intro vals cur w2
  have h3 : set_frame w dim_val dim_idx =
      (if w.cached then updateO w2 cur else dynamic_update w2 cur) := rfl
  refine ⟨?_, ?_, h3⟩
  · rw [h3]
    split
    · rw [updateO_current_vals]
    · rw [dynamic_update_current_vals]
  · rw [h3]
    split
    · rw [updateO_current_frame]
    · rw [dynamic_update_current_frame]

/-- C3: the string key built by `set_frame` is a parenthesised tuple of
single-quoted values separated by a comma and a space; a numeric slider
value is formatted with `toFixed` to 1 decimal place when it is an integer
(`v % 1 === 0`, i.e. denominator 1) and to 10 decimal places otherwise;
non-numeric values are used verbatim; and with exactly one slider the
single value is followed by a trailing comma before the closing
parenthesis. -/
theorem set_frame_key_format (vals : List JSVal) :
    buildKey vals.length vals =
      "(" ++ sepBy (", ") (vals.map quoteVal) ++
        (if vals.length = 1 then (",") else ("")) ++ ")"
    ∧ (∀ v : JSVal, quoteVal v = "\x27" ++ formatVal v ++ "\x27")
    ∧ (∀ q : ℚ, formatVal (JSVal.num q) = toFixedJS q (if q.den = 1 then 1 else 10))
    ∧ (∀ q : ℚ, q.den = 1 ↔ (q.num : ℚ) = q)
    ∧ (∀ s : String, formatVal (JSVal.str s) = s) :=
  ⟨buildKey_sepBy vals, fun _ => rfl, fun _ => rfl, fun q => Rat.den_eq_one_iff q,
    fun _ => rfl⟩

theorem update_keyMap (w : Widget) (n : Nat) : (update w n).keyMap = w.keyMap := rfl

/-- C8: for every call to `update(current)`: if `current` is not a key of
the cache the call changes nothing; if it is, every cached frame is hidden
and only the entry for `current` is shown, so after the call at most one
cached frame is visible. -/
theorem update_visibility (w : Widget) (n : Nat) :
    (alookup w.cache n = none → update w n = w)
    ∧ (∀ e, alookup w.cache n = some e →
        alookup (update w n).cache n = some { e with visible := true }
        ∧ (∀ k, k ≠ n → alookup (update w n).cache k =
            (alookup w.cache k).map (fun e => { e with visible := false }))
        ∧ visCount (update w n).cache = 1)
    ∧ (visCount w.cache ≤ 1 → visCount (update w n).cache ≤ 1) := by
  refine ⟨update_of_none w n, ?_, ?_⟩
  · intro e he
    have hs : (alookup w.cache n).isSome := by rw [he]; rfl
    exact ⟨alookup_update_self w n e he,
      fun k hk => alookup_update_ne w n k hk hs,
      visCount_update_of_some w n hs⟩
  · intro hle
    show visCount (updatedCache w.cache n) ≤ 1
    unfold updatedCache
    split
    · exact visCount_aupdate_le_one _ _ _ (visCount_hideAll _)
    · exact hle

/-- C8 witness: evaluated on the concrete widget `WcFull` (frame 0 cached)
and on `Wc` (frame 5 absent). -/
theorem update_visibility_witness :
    (alookup Wc.cache 5 = none ∧ update Wc 5 = Wc)
    ∧ (alookup WcFull.cache 0 = some ⟨DomContent.html ("F0"), false⟩
        ∧ alookup (update WcFull 0).cache 0 = some ⟨DomContent.html ("F0"), true⟩
        ∧ visCount (update WcFull 0).cache = 1
        ∧ visCount WcFull.cache ≤ 1
        ∧ visCount (update WcFull 0).cache ≤ 1) := by
  refine ⟨⟨rfl, (update_visibility Wc 5).1 rfl⟩, rfl, ?_, ?_, by decide, ?_⟩
  · exact ((update_visibility WcFull 0).2.1 ⟨DomContent.html ("F0"), false⟩ rfl).1
  · exact ((update_visibility WcFull 0).2.1 ⟨DomContent.html ("F0"), false⟩ rfl).2.2
  · exact (update_visibility WcFull 0).2.2 (by decide)

/-- C9: `update_cache` never overwrites an existing cache entry, and (the
`frames`/`keyMap` state being left fixed by the call itself) running it
twice in succession leaves the cache identical to running it once. -/
theorem update_cache_no_overwrite_idem (w : Widget) :
    (∀ k e, alookup w.cache k = some e → alookup (update_cache w).cache k = some e)
    ∧ update_cache (update_cache w) = update_cache w
    ∧ (update_cache w).frames = w.frames
    ∧ (update_cache w).keyMap = w.keyMap :=
  ⟨fun k e h => update_cache_of_some w k e h, update_cache_idem w,
    update_cache_frames w, update_cache_keyMap w⟩

/-- C9 witness: the existing entry for frame 0 of `WcFull` survives another
`update_cache` unchanged. -/
theorem update_cache_no_overwrite_idem_witness :
    alookup WcFull.cache 0 = some ⟨DomContent.html ("F0"), false⟩
    ∧ alookup (update_cache WcFull).cache 0 = some ⟨DomContent.html ("F0"), false⟩ :=
  ⟨rfl, (update_cache_no_overwrite_idem WcFull).1 0 ⟨DomContent.html ("F0"), false⟩ rfl⟩

/-- C10: if the key built by `set_frame` is absent from `keyMap`, the call
still updates `current_vals[dim_idx]` and sets `current_frame` to the
undefined value (`none`); in cached mode the display is then left entirely
unchanged, so an unrecognised slider combination silently keeps the
previous frame visible. -/
theorem set_frame_missing_key (w : Widget) (dim_val : JSVal) (dim_idx : Nat)
    (hmiss : alookup w.keyMap
      (buildKey w.slider_ids.length (w.current_vals.set dim_idx dim_val)) = none)
    (hc : w.cached = true) :
    set_frame w dim_val dim_idx =
      { w with
        current_vals := w.current_vals.set dim_idx dim_val
        current_frame := none } := by
  have h3 : set_frame w dim_val dim_idx =
      (if w.cached then
        updateO
          { w with
            current_vals := w.current_vals.set dim_idx dim_val
            current_frame := alookup w.keyMap
              (buildKey w.slider_ids.length (w.current_vals.set dim_idx dim_val)) }
          (alookup w.keyMap
            (buildKey w.slider_ids.length (w.current_vals.set dim_idx dim_val)))
      else
        dynamic_update
          { w with
            current_vals := w.current_vals.set dim_idx dim_val
            current_frame := alookup w.keyMap
              (buildKey w.slider_ids.length (w.current_vals.set dim_idx dim_val)) }
          (alookup w.keyMap
            (buildKey w.slider_ids.length (w.current_vals.set dim_idx dim_val)))) := rfl
  rw [h3, hmiss, hc]
  rfl

/-- C10 witness: sliding `Wc`'s only slider to the label `z`, whose key is
not in `keyMap`. -/
theorem set_frame_missing_key_witness :
    alookup Wc.keyMap
      (buildKey Wc.slider_ids.length (Wc.current_vals.set 0 (JSVal.str ("z")))) = none
    ∧ Wc.cached = true
    ∧ set_frame Wc (JSVal.str ("z")) 0 =
        { Wc with
          current_vals := Wc.current_vals.set 0 (JSVal.str ("z"))
          current_frame := none } :=
  ⟨rfl, rfl, set_frame_missing_key Wc (JSVal.str ("z")) 0 rfl rfl⟩

/-- C4: no widget operation (`init_slider`, `update_cache`,
`populate_cache`, `dynamic_update`, `update`, `set_frame`, nor the response
callback of `dynamic_update`) ever removes an entry from the cache: every
key present before an operation is still present after it. -/
theorem cache_keys_monotone (w : Widget) (v : JSVal) (i : Nat) (cur : Option Nat)
    (n : Nat) (m : String) :
    cacheKeys w ⊆ cacheKeys (init_slider w v)
    ∧ cacheKeys w ⊆ cacheKeys (update_cache w)
    ∧ cacheKeys w ⊆ cacheKeys (populate_cache w n)
    ∧ cacheKeys w ⊆ cacheKeys (dynamic_update w cur)
    ∧ cacheKeys w ⊆ cacheKeys (update w n)
    ∧ cacheKeys w ⊆ cacheKeys (set_frame w v i)
    ∧ cacheKeys w ⊆ cacheKeys (dyn_callback w n m) := by
  refine ⟨cacheKeys_init_slider w v, cacheKeys_update_cache w, ?_, ?_, ?_, ?_,
    cacheKeys_dyn_callback w n m⟩
  · rw [cacheKeys_populate_cache]
    exact fun a ha => ha
  · rw [cacheKeys_dynamic_update]
    exact fun a ha => ha
  · rw [cacheKeys_update]
    exact fun a ha => ha
  · rw [cacheKeys_set_frame]
    exact fun a ha => ha

/-- The claim-side reading of lazy population: some widget operation run
after construction adds to or changes the `keyMap`. -/
def keyMapPopulatedLazily : Prop :=
  (∃ w v, (init_slider w v).keyMap ≠ w.keyMap)
  ∨ (∃ w, (update_cache w).keyMap ≠ w.keyMap)
  ∨ (∃ w n, (populate_cache w n).keyMap ≠ w.keyMap)
  ∨ (∃ w cur, (dynamic_update w cur).keyMap ≠ w.keyMap)
  ∨ (∃ w n, (update w n).keyMap ≠ w.keyMap)
  ∨ (∃ w v i, (set_frame w v i).keyMap ≠ w.keyMap)
  ∨ (∃ w n m, (dyn_callback w n m).keyMap ≠ w.keyMap)

/-- C5 (counterexample): `keyMap` is not populated lazily — no widget
operation ever adds an entry to it after construction; it arrives fully
populated as a constructor argument. -/
theorem keyMap_not_populated_lazily : ¬ keyMapPopulatedLazily := by
  intro h
  rcases h with ⟨w, v, h⟩ | ⟨w, h⟩ | ⟨w, n, h⟩ | ⟨w, cur, h⟩ | ⟨w, n, h⟩ |
    ⟨w, v, i, h⟩ | ⟨w, n, m, h⟩
  · exact h (init_slider_keyMap w v)
  · exact h (update_cache_keyMap w)
  · exact h (populate_cache_keyMap w n)
  · exact h (dynamic_update_keyMap w cur)
  · exact h (update_keyMap w n)
  · exact h (set_frame_keyMap w v i)
  · exact h (dyn_callback_keyMap w n m)

/-- C5 (amended): `keyMap` is fully initialised at widget construction from
the constructor argument and is never modified afterwards — no entry is
ever added (no lazy population) or evicted by any operation. -/
theorem keyMap_fixed_at_construction (frames : List (Nat × String)) (id : String)
    (slider_ids : List String) (keyMap : List (String × Nat)) (dim_vals : List JSVal)
    (nf : String) (lj : Bool) (mode : String) (cached : Bool) (srv : String)
    (w : Widget) (v : JSVal) (i : Nat) (cur : Option Nat) (n : Nat) (m : String) :
    (mkWidget frames id slider_ids keyMap dim_vals nf lj mode cached srv).keyMap = keyMap
    ∧ (init_slider w v).keyMap = w.keyMap
    ∧ (update_cache w).keyMap = w.keyMap
    ∧ (populate_cache w n).keyMap = w.keyMap
    ∧ (dynamic_update w cur).keyMap = w.keyMap
    ∧ (update w n).keyMap = w.keyMap
    ∧ (set_frame w v i).keyMap = w.keyMap
    ∧ (dyn_callback w n m).keyMap = w.keyMap :=
  ⟨(init_slider_keyMap _ _).trans rfl, init_slider_keyMap w v, update_cache_keyMap w,
    populate_cache_keyMap w n, dynamic_update_keyMap w cur, update_keyMap w n,
    set_frame_keyMap w v i, dyn_callback_keyMap w n m⟩

/-- A reachable dynamic-mode state with sparsely keyed frames: indices 0
and 3 have been fetched and cached (3 is displayed). -/
def Wskip : Widget :=
  { Wd with
    frames := [(0, "F0"), (3, "F3")]
    cache := [(0, ⟨DomContent.html ("F0"), false⟩), (3, ⟨DomContent.html ("F3"), true⟩)] }

/-- C2 (counterexample): at `Wskip`, requesting the uncached index 5 issues
the kernel command, but when the response callback runs, the `update_cache`
loop's reassigned counter visits only keys 0 and 3 (positions 0, 1, then
4 ≥ 3 stops): frame 5 is never cached and never shown, although its
response data did reach `frames`. -/
theorem dynamic_update_callback_caches_false :
    alookup Wskip.cache 5 = none
    ∧ Wskip.load_json = false
    ∧ alookup (dyn_callback (dynamic_update Wskip (some 5)) 5 ("\x27X\x27")).cache 5 = none
    ∧ alookup (dyn_callback (dynamic_update Wskip (some 5)) 5 ("\x27X\x27")).frames 5 =
        some ("X") :=
  ⟨rfl, rfl, rfl, rfl⟩

/-- C2 (amended): for every call to `dynamic_update(current)`: if `current`
is a key of the cache, the frame is shown via `update` and no request is
sent; if not, exactly one fire-and-forget kernel execute command for that
index is appended to the request log, with nothing else changed (no retry),
and nothing is cached or shown before the response callback runs; the
callback stores the payload in `frames` and caches and shows the frame
provided the `update_cache` loop's reassigned counter visits that index
(as it always does when the frame keys are exactly `0 .. m-1`; with sparse
keys the new index can be skipped and the frame is never cached). -/
theorem dynamic_update_spec (w : Widget) (n : Nat) (msg : String) :
    ((alookup w.cache n).isSome →
      dynamic_update w (some n) = update w n
      ∧ (dynamic_update w (some n)).requests = w.requests)
    ∧ (alookup w.cache n = none →
      (dynamic_update w (some n)).requests = w.requests ++ [requestCmd w.id (some n)]
      ∧ (dynamic_update w (some n)).cache = w.cache
      ∧ (dynamic_update w (some n)).frames = w.frames)
    ∧ (alookup w.cache n = none → w.load_json = false →
      n ∈ ucKeys { w with frames := aset w.frames n ((msg.drop 1).dropRight 1) } →
      alookup (dyn_callback w n msg).cache n =
        some ⟨DomContent.html ((msg.drop 1).dropRight 1), true⟩
      ∧ alookup (dyn_callback w n msg).frames n = some ((msg.drop 1).dropRight 1)
      ∧ (dyn_callback w n msg).requests = w.requests) := by
  refine ⟨?_, ?_, ?_⟩
  · intro hs
    have h := dynamic_update_hit w (some n) hs
    exact ⟨h, by rw [h, updateO_requests]⟩
  · intro hn
    have hic : inCache w (some n) = false := by
      show (alookup w.cache n).isSome = false
      rw [hn]
      rfl
    rw [dynamic_update_miss w (some n) hic]
    exact ⟨rfl, rfl, rfl⟩
  · intro hn hj hvisit
    have hcb : dyn_callback w n msg =
        update (update_cache
          { w with frames := aset w.frames n ((msg.drop 1).dropRight 1) }) n := rfl
    have hf' : alookup ({ w with
        frames := aset w.frames n ((msg.drop 1).dropRight 1) } : Widget).frames n =
        some ((msg.drop 1).dropRight 1) := by
      show alookup (aset w.frames n ((msg.drop 1).dropRight 1)) n = _
      rw [alookup_aset, if_pos rfl]
    have hcreate := update_cache_creates
      { w with frames := aset w.frames n ((msg.drop 1).dropRight 1) } n
      ((msg.drop 1).dropRight 1) hj hn hf' hvisit
    refine ⟨?_, ?_, ?_⟩
    · rw [hcb]
      exact alookup_update_self _ n _ hcreate
    · rw [hcb]
      have hfr : (update (update_cache
          { w with frames := aset w.frames n ((msg.drop 1).dropRight 1) }) n).frames =
          ({ w with frames := aset w.frames n ((msg.drop 1).dropRight 1) } : Widget).frames := by
        show (update_cache
          { w with frames := aset w.frames n ((msg.drop 1).dropRight 1) }).frames = _
        exact update_cache_frames _
      rw [hfr]
      exact hf'
    · exact dyn_callback_requests w n msg

/-- C2 witness: a cache hit on `WcFull` sends nothing; a miss on `Wc` logs
exactly one kernel command; the callback for the string payload `'D'`
visits index 0 of the densely keyed frames and caches and shows it. -/
theorem dynamic_update_spec_witness :
    ((alookup WcFull.cache 0).isSome
      ∧ dynamic_update WcFull (some 0) = update WcFull 0
      ∧ (dynamic_update WcFull (some 0)).requests = WcFull.requests)
    ∧ (alookup Wc.cache 0 = none
      ∧ (dynamic_update Wc (some 0)).requests = Wc.requests ++ [requestCmd Wc.id (some 0)]
      ∧ Wc.load_json = false
      ∧ 0 ∈ ucKeys { Wc with frames := aset Wc.frames 0 ("D") }
      ∧ alookup (dyn_callback Wc 0 ("\x27D\x27")).cache 0 =
          some ⟨DomContent.html ("D"), true⟩) := by
  refine ⟨⟨rfl, ?_, ?_⟩, rfl, ?_, rfl, by decide, ?_⟩
  · exact ((dynamic_update_spec WcFull 0 ("")).1 rfl).1
  · exact ((dynamic_update_spec WcFull 0 ("")).1 rfl).2
  · exact ((dynamic_update_spec Wc 0 ("")).2.1 rfl).1
  · exact ((dynamic_update_spec Wc 0 ("\x27D\x27")).2.2 rfl rfl (by decide)).1

/-- C6 (counterexample): constructing the cached widget over frames keyed
`{1, 2}`: the loop's position 0 picks key 1, the counter then jumps to
1 + 1 = 2 = frame_len and the loop stops, so frame 2 — although present in
`frames` — never gets a cache entry. -/
theorem constructor_caches_every_frame_false :
    alookup (mkWidget [(1, "F1"), (2, "F2")] "8" ["s0"] [] [JSVal.str ("a")]
        ("nf") false ("m") true ("srv")).frames 2 = some ("F2")
    ∧ alookup (mkWidget [(1, "F1"), (2, "F2")] "8" ["s0"] [] [JSVal.str ("a")]
        ("nf") false ("m") true ("srv")).cache 2 = none :=
  ⟨rfl, rfl⟩

/-- C6 (amended): on construction the cache starts empty and `init_slider`
runs exactly once (as the constructor's last step): in cached mode it runs
the `update_cache` loop — which caches the frames its reassigned counter
visits, hence an entry for every frame, fetched via `populate_cache`,
whenever the frame keys are exactly `0 .. m-1` (the dense layout the
normally exported widget data has) — and then displays frame 0; in
non-cached mode it instead issues a single `dynamic_update` request for
frame 0. -/
theorem constructor_spec (frames : List (Nat × String)) (id : String)
    (slider_ids : List String) (keyMap : List (String × Nat)) (dim_vals : List JSVal)
    (nf : String) (lj : Bool) (mode : String) (cached : Bool) (srv : String) :
    let w0 := ctorState frames id slider_ids keyMap dim_vals nf lj mode cached srv
    let w := mkWidget frames id slider_ids keyMap dim_vals nf lj mode cached srv
    (w0.cache = [] ∧ w = init_slider w0 (jsIndex dim_vals 0))
    ∧ (cached = true → lj = false →
        frames.map Prod.fst = List.range frames.length →
        ∀ k s, alookup frames k = some s →
        ∃ b, alookup w.cache k = some ⟨DomContent.html s, b⟩)
    ∧ (cached = true → lj = false →
        frames.map Prod.fst = List.range frames.length →
        ∀ s0, alookup frames 0 = some s0 →
        alookup w.cache 0 = some ⟨DomContent.html s0, true⟩)
    ∧ (cached = true → lj = true → ∀ k, k < keyMap.length → (alookup w.cache k).isSome)
    ∧ (cached = false → w.cache = [] ∧ w.requests = [requestCmd id (some 0)]) := by
  intro w0 w
  have hcachedTrue : ∀ hc : cached = true, w = update (update_cache w0) 0 := by
    intro hc
    show init_slider w0 (jsIndex dim_vals 0) = _
    unfold init_slider
    rw [show w0.cached = true from hc, if_pos rfl]
  refine ⟨⟨rfl, rfl⟩, ?_, ?_, ?_, ?_⟩
  · intro hc hlj hdense k s hks
    have hw := hcachedTrue hc
    have hmem : k ∈ ucKeys w0 :=
      mem_ucKeys_of_dense w0 k hlj hdense (alookup_some_mem _ _ _ hks)
    have hcr := update_cache_creates w0 k s hlj rfl hks hmem
    by_cases hk0 : k = 0
    · subst hk0
      refine ⟨true, ?_⟩
      rw [hw]
      exact alookup_update_self _ 0 _ hcr
    · cases hvis : (alookup (update_cache w0).cache 0).isSome
      · have h0n : alookup (update_cache w0).cache 0 = none := by
          cases hopt : alookup (update_cache w0).cache 0
          · rfl
          · rw [hopt] at hvis
            cases hvis
        refine ⟨false, ?_⟩
        rw [hw, update_of_none _ _ h0n]
        exact hcr
      · refine ⟨false, ?_⟩
        rw [hw, alookup_update_ne _ 0 k hk0 hvis, hcr]
        rfl
  · intro hc hlj hdense s0 h0
    have hw := hcachedTrue hc
    have hmem : (0 : Nat) ∈ ucKeys w0 :=
      mem_ucKeys_of_dense w0 0 hlj hdense (alookup_some_mem _ _ _ h0)
    have hcr := update_cache_creates w0 0 s0 hlj rfl h0 hmem
    rw [hw]
    exact alookup_update_self _ 0 _ hcr
  · intro hc hlj k hk
    have hw := hcachedTrue hc
    have hfk : ucKeys w0 = List.range keyMap.length := by
      unfold ucKeys
      rw [show w0.load_json = true from hlj, if_pos rfl]
      rfl
    have hmem : k ∈ ucKeys w0 := by
      rw [hfk]
      exact List.mem_range.mpr hk
    have h1 := update_cache_mem w0 k hmem
    rw [hw, isSome_alookup_update]
    exact h1
  · intro hc
    have hw : w = dynamic_update w0 (some 0) := by
      show init_slider w0 (jsIndex dim_vals 0) = _
      unfold init_slider
      rw [show w0.cached = false from hc]
      rfl
    have hic : inCache w0 (some 0) = false := rfl
    rw [hw, dynamic_update_miss w0 (some 0) hic]
    exact ⟨rfl, rfl⟩

/-- C6 witness: the concrete two-frame widget with densely keyed frames,
built cached (both frames cached, frame 0 shown) and non-cached (one kernel
request for frame 0). -/
theorem constructor_spec_witness :
    ([(0, "F0"), ((1 : Nat), "F1")].map Prod.fst =
        List.range ([(0, "F0"), ((1 : Nat), "F1")]).length)
    ∧ alookup (mkWidget [(0, "F0"), (1, "F1")] "7" ["s0"]
        [("(\x27a\x27,)", 0), ("(\x27b\x27,)", 1)] [JSVal.str ("a")]
        ("nf") false ("ipynb") true ("srv")).cache 0 = some ⟨DomContent.html ("F0"), true⟩
    ∧ (∃ b, alookup (mkWidget [(0, "F0"), (1, "F1")] "7" ["s0"]
        [("(\x27a\x27,)", 0), ("(\x27b\x27,)", 1)] [JSVal.str ("a")]
        ("nf") false ("ipynb") true ("srv")).cache 1 = some ⟨DomContent.html ("F1"), b⟩)
    ∧ (mkWidget [(0, "F0"), (1, "F1")] "7" ["s0"]
        [("(\x27a\x27,)", 0), ("(\x27b\x27,)", 1)] [JSVal.str ("a")]
        ("nf") false ("ipynb") false ("srv")).requests = [requestCmd ("7") (some 0)] :=
  ⟨rfl,
    (constructor_spec [(0, "F0"), (1, "F1")] "7" ["s0"]
      [("(\x27a\x27,)", 0), ("(\x27b\x27,)", 1)] [JSVal.str ("a")]
      ("nf") false ("ipynb") true ("srv")).2.2.1 rfl rfl rfl ("F0") rfl,
    (constructor_spec [(0, "F0"), (1, "F1")] "7" ["s0"]
      [("(\x27a\x27,)", 0), ("(\x27b\x27,)", 1)] [JSVal.str ("a")]
      ("nf") false ("ipynb") true ("srv")).2.1 rfl rfl rfl 1 ("F1") rfl,
    ((constructor_spec [(0, "F0"), (1, "F1")] "7" ["s0"]
      [("(\x27a\x27,)", 0), ("(\x27b\x27,)", 1)] [JSVal.str ("a")]
      ("nf") false ("ipynb") false ("srv")).2.2.2.2 rfl).2⟩

/-- C7 (amended): when the same uncached frame index is requested through
`dynamic_update` more than once before any response arrives, each call
issues its own kernel command; provided the `update_cache` loop's
reassigned counter visits the index when the first response is handled (as
it always does for densely keyed frames), that FIRST response fixes the
cached DOM content of the displayed entry — a later response for the same
index does not overwrite the cache entry; only the raw `frames` store keeps
the last response's data. -/
theorem same_index_first_response_wins (w : Widget) (n : Nat) (m1 m2 : String)
    (hn : alookup w.cache n = none) (hj : w.load_json = false)
    (hvisit : n ∈ ucKeys { w with frames := aset w.frames n ((m1.drop 1).dropRight 1) }) :
    let w1 := dynamic_update w (some n)
    let w2 := dynamic_update w1 (some n)
    let w3 := dyn_callback w2 n m1
    let w4 := dyn_callback w3 n m2
    w2.requests = w.requests ++ [requestCmd w.id (some n), requestCmd w.id (some n)]
    ∧ alookup w4.cache n = some ⟨DomContent.html ((m1.drop 1).dropRight 1), true⟩
    ∧ alookup w4.frames n = some ((m2.drop 1).dropRight 1) := by
  intro w1 w2 w3 w4
  have hic : inCache w (some n) = false := by
    show (alookup w.cache n).isSome = false
    rw [hn]
    rfl
  have h1 : w1 = { w with requests := w.requests ++ [requestCmd w.id (some n)] } :=
    dynamic_update_miss w (some n) hic
  have hn1 : alookup w1.cache n = none := by rw [h1]; exact hn
  have hic1 : inCache w1 (some n) = false := by
    show (alookup w1.cache n).isSome = false
    rw [hn1]
    rfl
  have h2 : w2 = { w1 with requests := w1.requests ++ [requestCmd w1.id (some n)] } :=
    dynamic_update_miss w1 (some n) hic1
  have hn2 : alookup w2.cache n = none := by rw [h2]; exact hn1
  have hj2 : w2.load_json = false := by rw [h2, h1]; exact hj
  have hfA : alookup ({ w2 with
      frames := aset w2.frames n ((m1.drop 1).dropRight 1) } : Widget).frames n =
      some ((m1.drop 1).dropRight 1) := by
    show alookup (aset w2.frames n ((m1.drop 1).dropRight 1)) n = _
    rw [alookup_aset, if_pos rfl]
  have hvisit2 : n ∈ ucKeys
      { w2 with frames := aset w2.frames n ((m1.drop 1).dropRight 1) } := by
    rw [h2, h1]
    exact hvisit
  have hcr := update_cache_creates
    { w2 with frames := aset w2.frames n ((m1.drop 1).dropRight 1) } n
    ((m1.drop 1).dropRight 1) hj2 hn2 hfA hvisit2
  have h3self : alookup w3.cache n =
      some ⟨DomContent.html ((m1.drop 1).dropRight 1), true⟩ := by
    show alookup (update (update_cache
      { w2 with frames := aset w2.frames n ((m1.drop 1).dropRight 1) }) n).cache n = _
    exact alookup_update_self _ n _ hcr
  have hpres := update_cache_of_some
    { w3 with frames := aset w3.frames n ((m2.drop 1).dropRight 1) } n
    ⟨DomContent.html ((m1.drop 1).dropRight 1), true⟩ h3self
  refine ⟨?_, ?_, ?_⟩
  · rw [h2, h1]
    show (w.requests ++ [requestCmd w.id (some n)]) ++ [requestCmd w.id (some n)] = _
    rw [List.append_assoc]
    rfl
  · show alookup (update (update_cache
      { w3 with frames := aset w3.frames n ((m2.drop 1).dropRight 1) }) n).cache n = _
    exact alookup_update_self _ n _ hpres
  · show alookup (update (update_cache
      { w3 with frames := aset w3.frames n ((m2.drop 1).dropRight 1) }) n).frames n = _
    show alookup (update_cache
      { w3 with frames := aset w3.frames n ((m2.drop 1).dropRight 1) }).frames n = _
    rw [update_cache_frames]
    show alookup (aset w3.frames n ((m2.drop 1).dropRight 1)) n = _
    rw [alookup_aset, if_pos rfl]

/-- C7 (counterexample): on the concrete dynamic-mode widget `Wd`, index 0
is requested twice and the responses `'A'` then `'B'` are handled in that
order; the cached, displayed fragment afterwards holds `A` — the first
response — not the last response's `B`, which survives only in the raw
`frames` map. -/
theorem last_response_wins_false :
    alookup (dyn_callback (dyn_callback
        (dynamic_update (dynamic_update Wd (some 0)) (some 0)) 0 ("\x27A\x27"))
        0 ("\x27B\x27")).cache 0 = some ⟨DomContent.html ("A"), true⟩
    ∧ ¬ (alookup (dyn_callback (dyn_callback
        (dynamic_update (dynamic_update Wd (some 0)) (some 0)) 0 ("\x27A\x27"))
        0 ("\x27B\x27")).cache 0 = some ⟨DomContent.html ("B"), true⟩)
    ∧ alookup (dyn_callback (dyn_callback
        (dynamic_update (dynamic_update Wd (some 0)) (some 0)) 0 ("\x27A\x27"))
        0 ("\x27B\x27")).frames 0 = some ("B") :=
  ⟨rfl, by decide, rfl⟩

/-- C7 witness: the amended theorem evaluated on `Wd` with responses `'A'`
then `'B'` for index 0. -/
theorem same_index_first_response_wins_witness :
    alookup Wd.cache 0 = none
    ∧ Wd.load_json = false
    ∧ 0 ∈ ucKeys { Wd with frames := aset Wd.frames 0 ("A") }
    ∧ alookup (dyn_callback (dyn_callback
        (dynamic_update (dynamic_update Wd (some 0)) (some 0)) 0 ("\x27A\x27"))
        0 ("\x27B\x27")).cache 0 = some ⟨DomContent.html ("A"), true⟩ :=
  ⟨rfl, rfl, by decide,
    (same_index_first_response_wins Wd 0 ("\x27A\x27") ("\x27B\x27") rfl rfl
      (by decide)).2.1⟩

/-- C1 witness: sliding `Wc`'s slider to the label `b` resolves the key
`(\x27b\x27,)` to frame 1 and records it. -/
theorem set_frame_spec_witness :
    (set_frame Wc (JSVal.str ("b")) 0).current_frame =
      alookup Wc.keyMap
        (buildKey Wc.slider_ids.length (Wc.current_vals.set 0 (JSVal.str ("b"))))
    ∧ alookup Wc.keyMap
        (buildKey Wc.slider_ids.length (Wc.current_vals.set 0 (JSVal.str ("b")))) =
        some 1 :=
  ⟨(set_frame_spec Wc (JSVal.str ("b")) 0).2.1, rfl⟩

/-- C3 witness: the integer 2 and the label `a` produce the key
`(\x272.0\x27, \x27a\x27)`; a single non-integer slider value produces a
trailing comma and ten decimal places. -/
theorem set_frame_key_format_witness :
    buildKey ([JSVal.num 2, JSVal.str ("a")]).length [JSVal.num 2, JSVal.str ("a")] =
      "(" ++ sepBy (", ") ([JSVal.num 2, JSVal.str ("a")].map quoteVal) ++
        (if ([JSVal.num 2, JSVal.str ("a")]).length = 1 then (",") else ("")) ++ ")"
    ∧ buildKey 2 [JSVal.num 2, JSVal.str ("a")] = "(\x272.0\x27, \x27a\x27)"
    ∧ buildKey 1 [JSVal.num (5 / 2)] = "(\x272.5000000000\x27,)" := by
  have hf2 : formatVal (JSVal.num 2) = "2.0" := by
    show toFixedJS 2 (if (2 : ℚ).den = 1 then 1 else 10) = _
    rw [show (2 : ℚ).den = 1 from rfl, if_pos rfl]
    show (if (2 : ℚ) < 0 then ("-") ++ toFixedNN (-2) 1 else toFixedNN 2 1) = _
    rw [if_neg (by norm_num)]
    have h : ⌊(2 : ℚ) * 10 ^ 1 + 1 / 2⌋ = (20 : ℤ) := by
      rw [Int.floor_eq_iff]
      constructor <;> norm_num
    simp only [toFixedNN, h]
    decide
  have hf52 : formatVal (JSVal.num (5 / 2)) = "2.5000000000" := by
    show toFixedJS (5 / 2) (if (5 / 2 : ℚ).den = 1 then 1 else 10) = _
    rw [if_neg (by norm_num)]
    show (if (5 / 2 : ℚ) < 0 then ("-") ++ toFixedNN (-(5 / 2)) 10 else toFixedNN (5 / 2) 10) = _
    rw [if_neg (by norm_num)]
    have h : ⌊(5 / 2 : ℚ) * 10 ^ 10 + 1 / 2⌋ = (25000000000 : ℤ) := by
      rw [Int.floor_eq_iff]
      constructor <;> norm_num
    simp only [toFixedNN, h]
    decide
  have h1 := (set_frame_key_format [JSVal.num 2, JSVal.str ("a")]).1
  have h2 := (set_frame_key_format [JSVal.num (5 / 2)]).1
  refine ⟨h1, ?_, ?_⟩
  · rw [show ([JSVal.num 2, JSVal.str ("a")]).length = 2 from rfl] at h1
    rw [h1]
    simp only [List.map_cons, List.map_nil, sepBy, quoteVal, hf2,
      show formatVal (JSVal.str ("a")) = "a" from rfl]
    decide
  · rw [show ([JSVal.num (5 / 2)]).length = 1 from rfl] at h2
    rw [h2]
    simp only [List.map_cons, List.map_nil, sepBy, quoteVal, hf52]
    decide

/-- C4 witness: the cached keys of `WcFull` survive a `set_frame` call. -/
theorem cache_keys_monotone_witness :
    cacheKeys WcFull ⊆ cacheKeys (set_frame WcFull (JSVal.str ("b")) 0) :=
  (cache_keys_monotone WcFull (JSVal.str ("b")) 0 (some 0) 0 ("")).2.2.2.2.2.1

/-- C5 witness: a concrete construction keeps exactly the `keyMap` it was
given. -/
theorem keyMap_fixed_at_construction_witness :
    (mkWidget [(0, "F0")] "9" ["s0"] [("(\x27a\x27,)", 0)] [JSVal.str ("a")]
      ("nf") false ("m") true ("srv")).keyMap = [("(\x27a\x27,)", 0)] :=
  (keyMap_fixed_at_construction [(0, "F0")] "9" ["s0"] [("(\x27a\x27,)", 0)]
    [JSVal.str ("a")] ("nf") false ("m") true ("srv") Wc (JSVal.str ("a")) 0 (some 0) 0 ("")).1
